import Mathlib

/-!
Verification of the SDL Import Calculator backend (BOLT-BIC repository).

The JavaScript sources are shallowly embedded: JS numbers become `ℚ`
(all constants in the code are exact decimals), `null`/`undefined`
become `Option`, JS truthiness tests (`if (x)`) become explicit
`≠ 0` / `isSome` tests, `Math.round` becomes `jsRound` (round half up),
`Math.floor` becomes `Int.floor`, and the SQL store becomes a list of
rows with explicit state passing.  Network calls and HTML-selector
extraction are modelled by their outcome: an environment record carries
what each external provider would return for the URL being scraped.
-/

set_option linter.unusedVariables false

/-- JS `Math.round`: round half toward positive infinity. -/
def jsRound (q : ℚ) : ℤ := ⌊q + 1/2⌋

/-- JS `Math.round(x * 100) / 100`: round a currency amount to cents. -/
def roundCents (q : ℚ) : ℚ := (jsRound (q * 100) : ℚ) / 100

/-- JS numeric coercion of a possibly-`null` number (`null` coerces to 0). -/
def jsNum (q : Option ℚ) : ℚ := q.getD 0

/-- JS `x || d` on numbers: `0` (and `null`, handled by the caller) is falsy. -/
def jsOrQ (q d : ℚ) : ℚ := if q = 0 then d else q

/-- A `{length, width, height}` dimensions object (inches). -/
structure Dims where
  length : ℚ
  width : ℚ
  height : ℚ
deriving DecidableEq, Repr

/-- The `categoryMultipliers` table of `calculateShippingCost`
(src/backend/server.js lines 534-541); `categoryMultipliers[category] || 1.0`. -/
def categoryMultipliersSrv (category : String) : ℚ :=
  if category = "Furniture" then 5/2
  else if category = "Electronics" then 9/5
  else if category = "Home & Garden" then 3/2
  else if category = "General Merchandise" then 1
  else 1

/-- `calculateShippingCost(category, weight, price, dimensions)` of
src/backend/server.js lines 531-556.  `weight` is used only when truthy and
positive, otherwise a weight is estimated from the price; `dimensions` is
accepted but never read in this variant.  The result is rounded to cents. -/
def calculateShippingCost (category : String) (weight : Option ℚ)
    (price : Option ℚ) (dimensions : Option Dims) : ℚ :=
  let multiplier := categoryMultipliersSrv category
  let base1 : ℚ := 15 * multiplier
  let base2 : ℚ :=
    match weight with
    | some w =>
      if 0 < w then base1 + w * (5/2)
      else base1 + max 1 (jsNum price * (1/50) * multiplier) * (5/2)
    | none => base1 + max 1 (jsNum price * (1/50) * multiplier) * (5/2)
  let base3 : ℚ :=
    match price with
    | some p => if 100 < p then base2 + min (p * (1/20)) 50 else base2
    | none => base2
  roundCents base3

/-- The `categoryMultipliers` table of `estimateShippingCost`
(src/unnamed/part_000 lines 1177-1188). -/
def categoryMultipliersP0 (category : String) : ℚ :=
  if category = "Electronics" then 6/5
  else if category = "Furniture" then 5/2
  else if category = "Home & Garden" then 9/5
  else if category = "Sports & Outdoors" then 3/2
  else if category = "Automotive" then 2
  else if category = "Books" then 4/5
  else if category = "Clothing" then 9/10
  else if category = "Beauty & Personal Care" then 7/10
  else if category = "Toys" then 11/10
  else if category = "General Merchandise" then 1
  else 1

/-- `estimateShippingCost(category, price, weight, dimensions)` of
src/unnamed/part_000 lines 1173-1221: multiplicative adjustments for
category, price band, weight band and volume band, then
`Math.max(8, Math.min(baseCost, 200))` and `Math.round` (whole dollars). -/
def estimateShippingCost (category : String) (price : Option ℚ)
    (weight : Option ℚ) (dimensions : Option Dims) : ℤ :=
  let c1 : ℚ := 15 * categoryMultipliersP0 category
  let c2 : ℚ :=
    match price with
    | some p =>
      if p = 0 then c1
      else if 500 < p then c1 * (3/2)
      else if 200 < p then c1 * (13/10)
      else if 100 < p then c1 * (11/10)
      else if p < 25 then c1 * (4/5)
      else c1
    | none => c1
  let c3 : ℚ :=
    match weight with
    | some w =>
      if w = 0 then c2
      else if 50 < w then c2 * 2
      else if 20 < w then c2 * (3/2)
      else if 10 < w then c2 * (6/5)
      else if w < 1 then c2 * (7/10)
      else c2
    | none => c2
  let c4 : ℚ :=
    match dimensions with
    | some d =>
      if d.length ≠ 0 ∧ d.width ≠ 0 ∧ d.height ≠ 0 then
        let volume := d.length * d.width * d.height
        if 10000 < volume then c3 * (5/2)
        else if 5000 < volume then c3 * (9/5)
        else if 1000 < volume then c3 * (13/10)
        else if volume < 100 then c3 * (4/5)
        else c3
      else c3
    | none => c3
  jsRound (max 8 (min c4 200))

/-- The `categoryRates` table of the test server `estimateShippingCost`
(src/backend/server.js lines 362-371); `categoryRates[category] || 20`. -/
def categoryRatesTest (category : String) : ℚ :=
  if category = "Furniture" then 45
  else if category = "Electronics" then 25
  else if category = "Home & Garden" then 20
  else if category = "Clothing" then 15
  else if category = "Books" then 12
  else if category = "Toys & Games" then 18
  else if category = "Sports & Outdoors" then 30
  else if category = "General" then 20
  else 20

/-- `estimateShippingCost(category, dimensions, weight)` of the test server
(src/backend/server.js lines 360-396).  When `TEST_MODE` is on the code adds
`Math.floor(Math.random() * 10) - 5` to the cost; the random draw is made
explicit as the `rand` argument (`rand % 10` models `Math.floor(Math.random()*10)`).
Returns `Math.max(10, Math.round(baseCost))`. -/
def estimateShippingCostTest (category : String) (dimensions : Option Dims)
    (weight : Option ℚ) (testMode : Bool) (rand : ℕ) : ℤ :=
  let b1 : ℚ := categoryRatesTest category
  let b2 : ℚ :=
    match dimensions with
    | some d =>
      let volume := jsOrQ d.length 12 * jsOrQ d.width 12 * jsOrQ d.height 12
      let cubicFeet := volume / 1728
      let x1 := if 5 < cubicFeet then b1 + (⌊cubicFeet - 5⌋ : ℚ) * 8 else b1
      if 15 < cubicFeet then x1 + (⌊cubicFeet - 15⌋ : ℚ) * 5 else x1
    | none => b1
  let b3 : ℚ :=
    match weight with
    | some w =>
      if w = 0 then b2
      else
        let y1 := if 10 < w then b2 + (⌊w - 10⌋ : ℚ) * 2 else b2
        if 50 < w then y1 + (⌊w - 50⌋ : ℚ) * 1 else y1
    | none => b2
  let b4 : ℚ := if testMode then b3 + ((rand % 10 : ℕ) : ℚ) - 5 else b3
  max 10 (jsRound b4)

/-- JS `String.prototype.toLowerCase` on the ASCII strings this code handles. -/
def jsToLower (s : String) : String := String.mk (s.data.map Char.toLower)

/-- A JS regex word character (`\w`, i.e. `[A-Za-z0-9_]`), which is what the
`\b` word-boundary assertion tests. -/
def isWordChar (c : Char) : Bool :=
  (decide ('a' ≤ c) && decide (c ≤ 'z')) ||
  (decide ('A' ≤ c) && decide (c ≤ 'Z')) ||
  (decide ('0' ≤ c) && decide (c ≤ '9')) ||
  decide (c = '_')

/-- Whether the keyword `p` occurs in text `t` starting at index `i` with a
regex word boundary (`\b`) on each side. -/
def wordBoundedAt (t p : List Char) (i : ℕ) : Bool :=
  decide ((t.drop i).take p.length = p)
  && (decide (i = 0) || !isWordChar (t.getD (i - 1) ' '))
  && !isWordChar (t.getD (i + p.length) ' ')

/-- `text.match(/\b(kw)\b/) !== null`: the keyword occurs somewhere in the
text with a word boundary on each side. -/
def containsWord (t kw : String) : Bool :=
  (List.range (t.data.length + 1)).any (fun i => wordBoundedAt t.data kw.data i)

/-- Keywords of the Furniture rule (src/unnamed/part_000 line 94). -/
def furnitureKws : List String :=
  ["chair", "sofa", "couch", "table", "desk", "bed", "mattress", "dresser",
   "cabinet", "bookshelf", "nightstand", "ottoman", "bench", "stool"]

/-- Keywords of the Home & Garden rule (src/unnamed/part_000 line 99). -/
def homeGardenKws : List String :=
  ["lamp", "light", "lighting", "curtain", "rug", "carpet", "pillow",
   "cushion", "blanket", "throw", "vase", "plant", "garden", "outdoor"]

/-- Keywords of the Electronics rule (src/unnamed/part_000 line 104). -/
def electronicsKws : List String :=
  ["tv", "television", "computer", "laptop", "phone", "tablet", "speaker",
   "headphone", "camera", "gaming", "xbox", "playstation", "nintendo"]

/-- Keywords of the Kitchen & Dining rule (src/unnamed/part_000 line 109). -/
def kitchenKws : List String :=
  ["kitchen", "dining", "cookware", "appliance", "blender", "mixer",
   "coffee", "microwave", "refrigerator", "dishwasher"]

/-- Keywords of the Clothing & Accessories rule (src/unnamed/part_000 line 114). -/
def clothingKws : List String :=
  ["shirt", "pants", "dress", "shoes", "jacket", "coat", "hat", "bag",
   "watch", "jewelry", "clothing", "apparel"]

/-- Keywords of the Sports & Outdoors rule (src/unnamed/part_000 line 119). -/
def sportsKws : List String :=
  ["sport", "fitness", "exercise", "bike", "bicycle", "camping", "hiking",
   "fishing", "golf", "tennis", "basketball"]

/-- Keywords of the Tools & Hardware rule (src/unnamed/part_000 line 124). -/
def toolsKws : List String :=
  ["tool", "drill", "hammer", "saw", "wrench", "hardware", "construction",
   "repair", "maintenance"]

/-- Keywords of the Beauty & Personal Care rule (src/unnamed/part_000 line 129). -/
def beautyKws : List String :=
  ["beauty", "cosmetic", "skincare", "shampoo", "soap", "perfume", "makeup",
   "personal care"]

/-- Keywords of the Books & Media rule (src/unnamed/part_000 line 134). -/
def booksKws : List String :=
  ["book", "dvd", "cd", "music", "movie", "game", "media", "magazine"]

/-- Keywords of the Toys & Games rule (src/unnamed/part_000 line 139). -/
def toysKws : List String :=
  ["toy", "game", "puzzle", "doll", "action figure", "lego", "board game",
   "kids", "children"]

/-- The category rules of `categorizeProduct` in the order the source checks
them (src/unnamed/part_000 lines 90-144). -/
def categoryRules : List (String × List String) :=
  [ ("Furniture", furnitureKws),
    ("Home & Garden", homeGardenKws),
    ("Electronics", electronicsKws),
    ("Kitchen & Dining", kitchenKws),
    ("Clothing & Accessories", clothingKws),
    ("Sports & Outdoors", sportsKws),
    ("Tools & Hardware", toolsKws),
    ("Beauty & Personal Care", beautyKws),
    ("Books & Media", booksKws),
    ("Toys & Games", toysKws) ]

/-- The text `categorizeProduct` matches against:
`(name + ' ' + url).toLowerCase()` (src/unnamed/part_000 line 91). -/
def categorizeText (name url : String) : String := jsToLower (name ++ " " ++ url)

/-- `categorizeProduct(name, url)` of src/unnamed/part_000 lines 90-144:
ten word-boundary keyword tests tried top to bottom, defaulting to
"General Merchandise". -/
def categorizeProduct (name url : String) : String :=
  let text := categorizeText name url
  if furnitureKws.any (fun kw => containsWord text kw) then "Furniture"
  else if homeGardenKws.any (fun kw => containsWord text kw) then "Home & Garden"
  else if electronicsKws.any (fun kw => containsWord text kw) then "Electronics"
  else if kitchenKws.any (fun kw => containsWord text kw) then "Kitchen & Dining"
  else if clothingKws.any (fun kw => containsWord text kw) then "Clothing & Accessories"
  else if sportsKws.any (fun kw => containsWord text kw) then "Sports & Outdoors"
  else if toolsKws.any (fun kw => containsWord text kw) then "Tools & Hardware"
  else if beautyKws.any (fun kw => containsWord text kw) then "Beauty & Personal Care"
  else if booksKws.any (fun kw => containsWord text kw) then "Books & Media"
  else if toysKws.any (fun kw => containsWord text kw) then "Toys & Games"
  else "General Merchandise"

/-- First-match-wins reading of an ordered rule list, the way the claim
describes the classifier: earliest matching rule decides, else the default. -/
def firstMatchingCategory (text : String) : List (String × List String) → String
  | [] => "General Merchandise"
  | r :: rest =>
    if r.2.any (fun kw => containsWord text kw) then r.1
    else firstMatchingCategory text rest

/-- The claim-level classifier: look up the first rule of `categoryRules`
(in order) one of whose keywords occurs word-bounded in the lowercased
concatenation of name and URL; default "General Merchandise". -/
def specCategorize (name url : String) : String :=
  match categoryRules.find?
      (fun r => r.2.any (fun kw => containsWord (categorizeText name url) kw)) with
  | some r => r.1
  | none => "General Merchandise"

/-- JS `String.prototype.includes`: substring containment. -/
def strIncludes (s pat : String) : Bool :=
  (List.range (s.data.length + 1)).any
    (fun i => decide ((s.data.drop i).take pat.data.length = pat.data))

/-- Models `new URL(url).hostname` for the ordinary http(s) URLs this system
handles: the text between the first `://` and the next `/`, `?` or `#`,
minus any userinfo (`@`) and port (`:`).  A URL without a scheme separator
makes the JS `URL` constructor throw, modelled as `none`. -/
def hostnameOf (url : String) : Option String :=
  match url.splitOn "://" with
  | [] => none
  | [_] => none
  | _ :: rest =>
    let tail := String.intercalate "://" rest
    let authority := tail.takeWhile (fun c => c != '/' && c != '?' && c != '#')
    let host :=
      match authority.splitOn "@" with
      | [] => authority
      | parts => parts.getLastD authority
    some (host.takeWhile (fun c => c != ':'))

/-- `detectRetailer(url)` of src/unnamed/part_000 lines 65-87 (15 retailers). -/
def detectRetailerP0 (url : String) : String :=
  match hostnameOf url with
  | none => "Unknown Retailer"
  | some h =>
    let domain := jsToLower h
    if strIncludes domain "amazon.com" then "Amazon"
    else if strIncludes domain "wayfair.com" then "Wayfair"
    else if strIncludes domain "target.com" then "Target"
    else if strIncludes domain "bestbuy.com" then "Best Buy"
    else if strIncludes domain "walmart.com" then "Walmart"
    else if strIncludes domain "homedepot.com" then "Home Depot"
    else if strIncludes domain "lowes.com" then "Lowes"
    else if strIncludes domain "costco.com" then "Costco"
    else if strIncludes domain "macys.com" then "Macys"
    else if strIncludes domain "ikea.com" then "IKEA"
    else if strIncludes domain "overstock.com" then "Overstock"
    else if strIncludes domain "cb2.com" then "CB2"
    else if strIncludes domain "crateandbarrel.com" then "Crate & Barrel"
    else if strIncludes domain "westelm.com" then "West Elm"
    else if strIncludes domain "potterybarn.com" then "Pottery Barn"
    else "Unknown Retailer"

/-- `detectRetailer(url)` of src/backend/server.js lines 500-513 (6 retailers). -/
def detectRetailerSrv (url : String) : String :=
  match hostnameOf url with
  | none => "Unknown Retailer"
  | some h =>
    let domain := jsToLower h
    if strIncludes domain "amazon.com" then "Amazon"
    else if strIncludes domain "wayfair.com" then "Wayfair"
    else if strIncludes domain "target.com" then "Target"
    else if strIncludes domain "bestbuy.com" then "Best Buy"
    else if strIncludes domain "walmart.com" then "Walmart"
    else if strIncludes domain "homedepot.com" then "Home Depot"
    else "Unknown Retailer"

/-- `detectRetailer(url)` of the test server, src/backend/server.js
lines 295-312 (10 retailers). -/
def detectRetailerTest (url : String) : String :=
  match hostnameOf url with
  | none => "Unknown Retailer"
  | some h =>
    let domain := jsToLower h
    if strIncludes domain "amazon.com" then "Amazon"
    else if strIncludes domain "wayfair.com" then "Wayfair"
    else if strIncludes domain "target.com" then "Target"
    else if strIncludes domain "bestbuy.com" then "Best Buy"
    else if strIncludes domain "walmart.com" then "Walmart"
    else if strIncludes domain "homedepot.com" then "Home Depot"
    else if strIncludes domain "lowes.com" then "Lowes"
    else if strIncludes domain "costco.com" then "Costco"
    else if strIncludes domain "macys.com" then "Macys"
    else if strIncludes domain "ikea.com" then "IKEA"
    else "Unknown Retailer"

/-- `guessCategory(url)` of the test server, src/backend/server.js
lines 314-324: plain substring checks on the lowercased URL. -/
def guessCategory (url : String) : String :=
  let u := jsToLower url
  if strIncludes u "furniture" || strIncludes u "chair" || strIncludes u "table" then "Furniture"
  else if strIncludes u "electronic" || strIncludes u "tv" || strIncludes u "computer" then "Electronics"
  else if strIncludes u "clothing" || strIncludes u "shirt" || strIncludes u "dress" then "Clothing"
  else if strIncludes u "home" || strIncludes u "kitchen" || strIncludes u "decor" then "Home & Garden"
  else if strIncludes u "toy" || strIncludes u "game" then "Toys & Games"
  else if strIncludes u "book" then "Books"
  else if strIncludes u "sport" || strIncludes u "fitness" then "Sports & Outdoors"
  else "General"

/-- The `categoryMultipliers` table of `calculateShippingCost` in
src/unnamed/part_000 lines 151-163 (11 categories); the JS lookup is
`categoryMultipliers[category] || 1.0`, and the category may be `null`. -/
def categoryMultipliersCalc (category : Option String) : ℚ :=
  match category with
  | none => 1
  | some c =>
    if c = "Furniture" then 5/2
    else if c = "Electronics" then 9/5
    else if c = "Home & Garden" then 3/2
    else if c = "Kitchen & Dining" then 17/10
    else if c = "Sports & Outdoors" then 2
    else if c = "Tools & Hardware" then 8/5
    else if c = "General Merchandise" then 1
    else if c = "Clothing & Accessories" then 4/5
    else if c = "Beauty & Personal Care" then 7/10
    else if c = "Books & Media" then 9/10
    else if c = "Toys & Games" then 6/5
    else 1

/-- `calculateShippingCost(category, weight, price, dimensions)` of
src/unnamed/part_000 lines 147-191: base cost times category multiplier,
per-pound surcharge (estimated weight from price when weight is missing),
dimensional-weight surcharge, value surcharge, rounded to cents. -/
def calculateShippingCostP0 (category : Option String) (weight : Option ℚ)
    (price : Option ℚ) (dimensions : Option Dims) : ℚ :=
  let multiplier := categoryMultipliersCalc category
  let base1 : ℚ := 15 * multiplier
  let base2 : ℚ :=
    match weight with
    | some w =>
      if 0 < w then base1 + w * (5/2)
      else base1 + max 1 (jsNum price * (1/50) * multiplier) * (5/2)
    | none => base1 + max 1 (jsNum price * (1/50) * multiplier) * (5/2)
  let base3 : ℚ :=
    match dimensions with
    | some d =>
      if d.length ≠ 0 ∧ d.width ≠ 0 ∧ d.height ≠ 0 then
        let dimWeight := d.length * d.width * d.height / 166
        if jsNum weight < dimWeight then base2 + (dimWeight - jsNum weight) * (3/2)
        else base2
      else base2
    | none => base2
  let base4 : ℚ :=
    match price with
    | some p => if 100 < p then base3 + min (p * (1/20)) 50 else base3
    | none => base3
  roundCents base4

/-- The canonical Product record produced by the scrape pipeline
(spec section 3); fields the JS code can leave `null` are `Option`. -/
structure Product where
  url : String
  name : Option String
  price : Option ℚ
  image : Option String
  retailer : String
  category : Option String
  weight : Option ℚ
  dimensions : Option Dims
  shippingCost : ℚ
  inStock : Bool
  scrapingMethod : String
deriving DecidableEq, Repr

/-- A cached record as `learningSystem.getKnownProduct` returns it
(src/unnamed/part_001 lines 104-132). -/
structure KnownProduct where
  name : Option String
  price : Option ℚ
  image : Option String
  category : Option String
  weight : Option ℚ
  dimensions : Option Dims
  confidence : ℚ
  inStock : Bool
deriving DecidableEq, Repr

/-- What a successful `apifyScraper.scrapeProduct` resolves with
(src/backend/apifyScraper.js `parseData`): the name defaults to
"Unknown Product" so it is always a string; price and image may be null. -/
structure ApifyData where
  name : String
  price : Option ℚ
  image : Option String
deriving DecidableEq, Repr

/-- What the inline ScrapingBee branch of `scrapeProductData` extracts when
it finds a non-empty product name (src/unnamed/part_000 lines 286-331);
price and image stay null when no selector matched. -/
structure SBData where
  name : String
  price : Option ℚ
  image : Option String
deriving DecidableEq, Repr

/-- What `upcItemDB.searchByName` resolves with on a hit
(src/unnamed/part_002 lines 44-53); every field may be missing. -/
structure UpcData where
  name : Option String
  image : Option String
  dimensions : Option Dims
  weight : Option ℚ
deriving DecidableEq, Repr

/-- What `learningSystem.getSmartEstimation` returns on success. -/
structure SmartEstimation where
  length : ℚ
  width : ℚ
  height : ℚ
  weight : ℚ
  confidence : ℚ
  source : String
deriving DecidableEq, Repr

/-- The external world `scrapeProductData` interacts with, modelled by
outcome: what the cache lookup, each provider call and the smart-estimation
lookup would yield for the URL being scraped.  `none` for a provider means
the call failed, threw, timed out or extracted no usable name — the code
treats all of these alike (log and fall through). -/
structure ScrapeEnv where
  cache : Option KnownProduct
  apifyAvailable : Bool
  apify : Option ApifyData
  scrapingBeeKey : Bool
  sb : Option SBData
  upcEnabled : Bool
  upc : Option UpcData
  aiEstimation : Option SmartEstimation
deriving DecidableEq, Repr

/-- The `productData` working record of `scrapeProductData`. -/
structure RawProduct where
  name : Option String
  price : Option ℚ
  image : Option String
  dimensions : Option Dims
  weight : Option ℚ
  category : Option String
  inStock : Bool
deriving DecidableEq, Repr

/-- JS string coercion of a nullable value used as a string:
`null + ' ' + url` yields the text "null ...". -/
def jsStringOfNullable (o : Option String) : String := o.getD "null"

/-- JS `a || b` where `a` is a nullable string: empty string is falsy. -/
def jsOrS (o : Option String) (d : String) : String :=
  match o with
  | some s => if s = "" then d else s
  | none => d

/-- `scrapeProductData(url)` of src/unnamed/part_000 lines 194-430: cache
check, then Apify, then the inline ScrapingBee extraction, then UPCitemdb,
then the synthesized fallback; category derivation, smart-estimation gap
fill, shipping cost, and the final Product record.  The function is not
total: line 427 logs `result.name.substring(0, 50)`, so when the assembled
result has a null name (a UPCitemdb hit whose item carries no title) the
code throws a TypeError and the promise rejects — modelled as
`Except.error`.  The cache-hit early return (line 203) precedes that line
and cannot throw. -/
def scrapeProductData (url : String) (env : ScrapeEnv) : Except String Product :=
  let retailer := detectRetailerP0 url
  match env.cache with
  | some kp =>
    Except.ok
      { url := url, name := kp.name, price := kp.price, image := kp.image,
        retailer := retailer, category := kp.category, weight := kp.weight,
        dimensions := kp.dimensions,
        shippingCost := calculateShippingCostP0 kp.category kp.weight kp.price kp.dimensions,
        inStock := kp.inStock, scrapingMethod := "ai_cache" }
  | none =>
    let step1 : Option RawProduct × String :=
      if env.apifyAvailable then
        match env.apify with
        | some a =>
          (some { name := some a.name, price := a.price, image := a.image,
                  dimensions := none, weight := none, category := none,
                  inStock := true }, "apify")
        | none => (none, "unknown")
      else (none, "unknown")
    let step2 : Option RawProduct × String :=
      match step1.1 with
      | some _ => step1
      | none =>
        if env.scrapingBeeKey then
          match env.sb with
          | some s =>
            (some { name := some s.name, price := s.price, image := s.image,
                    dimensions := none, weight := none, category := none,
                    inStock := true }, "scrapingbee")
          | none => (none, step1.2)
        else (none, step1.2)
    let step3 : Option RawProduct × String :=
      match step2.1 with
      | some _ => step2
      | none =>
        if env.upcEnabled then
          match env.upc with
          | some u =>
            (some { name := u.name, price := none, image := u.image,
                    dimensions := u.dimensions, weight := u.weight,
                    category := none, inStock := true }, "upcitemdb")
          | none => (none, step2.2)
        else (none, step2.2)
    let step4 : RawProduct × String :=
      match step3.1 with
      | some p => (p, step3.2)
      | none =>
        ({ name := some ("Product from " ++ retailer), price := none,
           image := some "https://placehold.co/300x300/7CB342/FFFFFF/png?text=SDL+Import",
           dimensions := none, weight := none, category := none,
           inStock := true }, "fallback")
    let produced := step4.1
    let scrapingMethod := step4.2
    let category :=
      jsOrS produced.category (categorizeProduct (jsStringOfNullable produced.name) url)
    let estimatedPrice : ℚ :=
      match produced.price with
      | some p => if p = 0 then 50 else p
      | none => 50
    let enhanced :=
      match env.aiEstimation, produced.dimensions with
      | some est, none =>
        { produced with
            dimensions := some { length := est.length, width := est.width, height := est.height },
            weight := some est.weight }
      | _, _ => produced
    match enhanced.name with
    | none => Except.error "TypeError: result.name.substring"
    | some _ =>
      Except.ok
        { url := url, name := enhanced.name, price := enhanced.price,
          image := enhanced.image, retailer := retailer, category := some category,
          weight := enhanced.weight, dimensions := enhanced.dimensions,
          shippingCost := calculateShippingCostP0 (some category) enhanced.weight
            (some estimatedPrice) enhanced.dimensions,
          inStock := enhanced.inStock, scrapingMethod := scrapingMethod }

/-- `createFallbackProduct(url)` of the test server, src/backend/server.js
lines 276-293: a synthesized Product whose shipping cost comes from the test
server `estimateShippingCost(category, null, null)`. -/
def createFallbackProduct (url : String) (testMode : Bool) (rand : ℕ) : Product :=
  let retailer := detectRetailerTest url
  let category := guessCategory url
  { url := url, name := some ("Product from " ++ retailer),
    retailer := retailer, category := some category, price := none,
    image := some "https://placehold.co/300x300/7CB342/FFFFFF/png?text=SDL",
    dimensions := none, weight := none, inStock := true,
    scrapingMethod := "fallback",
    shippingCost := (estimateShippingCostTest category none none testMode rand : ℚ) }

/-- A row of the `products` table (src/backend/tursoDatabase.js lines 42-58).
Dimensions are stored as three numeric columns (`saveProduct` writes
`dimensions?.length || 0`); `last_updated` is a timestamp in days. -/
structure ProductRow where
  url : String
  name : Option String
  retailer : Option String
  category : Option String
  price : Option ℚ
  weight : Option ℚ
  length : ℚ
  width : ℚ
  height : ℚ
  image : Option String
  scrape_method : Option String
  confidence : ℚ
  times_seen : ℕ
  last_updated : ℤ
deriving DecidableEq, Repr

/-- The `products` table, with its `url UNIQUE` key left as a hypothesis
where a claim needs it. -/
abbrev Store := List ProductRow

/-- The product argument of `tursoDatabase.saveProduct`
(src/backend/tursoDatabase.js line 153 destructuring). -/
structure ProductInput where
  url : String
  name : Option String
  retailer : Option String
  category : Option String
  price : Option ℚ
  weight : Option ℚ
  dimensions : Option Dims
  image : Option String
  scrapingMethod : Option String
deriving DecidableEq, Repr

/-- The confidence recomputation of `saveProduct`
(src/backend/tursoDatabase.js lines 155-159): 0.3 base, plus 0.2 for a
usable name, 0.2 for a truthy price, 0.2 for dimensions with positive
length, 0.1 for a truthy weight. -/
def computeConfidence (p : ProductInput) : ℚ :=
  (3/10)
  + (match p.name with
     | some n => if n ≠ "" ∧ n ≠ "Unknown Product" then 2/10 else 0
     | none => 0)
  + (match p.price with
     | some v => if v ≠ 0 then 2/10 else 0
     | none => 0)
  + (match p.dimensions with
     | some d => if 0 < d.length then 2/10 else 0
     | none => 0)
  + (match p.weight with
     | some w => if w ≠ 0 then 1/10 else 0
     | none => 0)

/-- `tursoDatabase.saveProduct` (src/backend/tursoDatabase.js lines 149-183):
`INSERT OR REPLACE` keyed by `url`, with
`times_seen = COALESCE((SELECT times_seen + 1 ... WHERE url = ?), 1)` and
`last_updated = CURRENT_TIMESTAMP` (the `now` argument).  The REPLACE
deletes any row with this url and inserts the new one (`saveProduct` below).
The side updates of `category_patterns` and `retailer_patterns` touch other
tables and are not part of the `products` state.  `saveSeen` is the
`COALESCE` subquery. -/
def saveSeen (s : Store) (u : String) : ℕ :=
  match s.find? (fun r => decide (r.url = u)) with
  | some r => r.times_seen + 1
  | none => 1

/-- The row the `INSERT OR REPLACE` of `saveProduct` writes: the given
product data (dimensions flattened with `|| 0`), the recomputed confidence,
the incremented `times_seen` and `CURRENT_TIMESTAMP`. -/
def savedRow (p : ProductInput) (seen : ℕ) (now : ℤ) : ProductRow :=
  { url := p.url, name := p.name, retailer := p.retailer,
    category := p.category, price := p.price, weight := p.weight,
    length := match p.dimensions with | some d => d.length | none => 0,
    width := match p.dimensions with | some d => d.width | none => 0,
    height := match p.dimensions with | some d => d.height | none => 0,
    image := p.image, scrape_method := p.scrapingMethod,
    confidence := computeConfidence p, times_seen := seen,
    last_updated := now }

def saveProduct (s : Store) (p : ProductInput) (now : ℤ) : Store :=
  s.filter (fun r => !decide (r.url = p.url)) ++
    [savedRow p (saveSeen s p.url) now]

/-- The row filter of the `getKnownProduct` SELECT
(src/backend/tursoDatabase.js line 120): same url, `last_updated` within the
last 30 days, confidence above 0.7. -/
def knownMatch (now : ℤ) (url : String) (r : ProductRow) : Bool :=
  decide (r.url = url) && decide (now - 30 < r.last_updated)
    && decide ((7/10 : ℚ) < r.confidence)

/-- `SELECT ... ORDER BY times_seen DESC LIMIT 1` over the matching rows:
the matching row with the highest `times_seen` (the url is UNIQUE, so at
most one row matches and the ordering is immaterial). -/
def selectKnown (s : Store) (now : ℤ) (url : String) : Option ProductRow :=
  (s.filter (knownMatch now url)).foldl
    (fun acc r =>
      match acc with
      | none => some r
      | some b => if b.times_seen < r.times_seen then some r else some b)
    none

/-- The UPDATE a cache hit performs (src/backend/tursoDatabase.js line 129):
`times_seen = times_seen + 1, confidence = MIN(1.0, confidence + 0.05)`. -/
def bumpKnown (r : ProductRow) : ProductRow :=
  { r with times_seen := r.times_seen + 1,
           confidence := min 1 (r.confidence + 1/20) }

/-- `tursoDatabase.getKnownProduct` (src/backend/tursoDatabase.js
lines 112-147): select a fresh, confidence-gated row for the url; on a hit,
run the UPDATE on every row with that url (one, by UNIQUE) and return the
row as read; on a miss return `none` and leave the table alone. -/
def getKnownProduct (s : Store) (now : ℤ) (url : String) :
    Option ProductRow × Store :=
  match selectKnown s now url with
  | some r => (some r, s.map (fun x => if x.url = url then bumpKnown x else x))
  | none => (none, s)

/-- The positive-sample filter of `calculateSmartAverage`
(src/backend/tursoDatabase.js line 339): `numbers.filter(n => n && n > 0)`
drops nulls, zeroes and negatives. -/
def positiveSamples (numbers : List (Option ℚ)) : List ℚ :=
  numbers.filterMap (fun n =>
    match n with
    | some v => if 0 < v then some v else none
    | none => none)

/-- Ascending insertion used to model `filtered.sort((a, b) => a - b)`. -/
def insertAsc (x : ℚ) : List ℚ → List ℚ
  | [] => [x]
  | y :: ys => if x ≤ y then x :: y :: ys else y :: insertAsc x ys

/-- `filtered.sort((a, b) => a - b)`: sort ascending. -/
def sortAsc (l : List ℚ) : List ℚ := l.foldr insertAsc []

/-- `tursoDatabase.calculateSmartAverage` (src/backend/tursoDatabase.js
lines 338-350): keep the positive samples; with more than 5 of them, sort,
drop `Math.floor(length * 0.2)` elements from each end
(`slice(cutoff, -cutoff)`; exact `length / 5` here, which agrees with the
float product for every feasible length) and average the rest; otherwise
average all of them; 0 for an empty sample. -/
def calculateSmartAverage (numbers : List (Option ℚ)) : ℚ :=
  let filtered := positiveSamples numbers
  if filtered.length = 0 then 0
  else if 5 < filtered.length then
    let sorted := sortAsc filtered
    let cutoff := filtered.length / 5
    let trimmed := (sorted.drop cutoff).take (sorted.length - 2 * cutoff)
    trimmed.sum / (trimmed.length : ℚ)
  else filtered.sum / (filtered.length : ℚ)

/-- A row of the `category_patterns` table
(src/backend/tursoDatabase.js lines 60-71). -/
structure CategoryPattern where
  category : String
  avg_weight : ℚ
  avg_length : ℚ
  avg_width : ℚ
  avg_height : ℚ
  min_weight : ℚ
  max_weight : ℚ
  min_price : ℚ
  max_price : ℚ
  sample_count : ℕ
deriving DecidableEq, Repr

/-- `tursoDatabase.getSmartEstimation` (src/backend/tursoDatabase.js
lines 283-336) over the results of its two queries: `similar` stands for the
rows of `SELECT ... WHERE category = ? AND retailer = ? AND confidence > 0.6
ORDER BY times_seen DESC LIMIT 10`, and `patterns` for the rows of
`SELECT ... FROM category_patterns WHERE category = ? AND sample_count > 5`.
More than 3 similar products give trimmed-mean averages over them;
otherwise the first category pattern row is used; otherwise `none`. -/
def getSmartEstimation (similar : List ProductRow)
    (patterns : List CategoryPattern) : Option SmartEstimation :=
  if 3 < similar.length then
    some { length := calculateSmartAverage (similar.map (fun p => some p.length)),
           width := calculateSmartAverage (similar.map (fun p => some p.width)),
           height := calculateSmartAverage (similar.map (fun p => some p.height)),
           weight := calculateSmartAverage (similar.map (fun p => p.weight)),
           confidence := min (9/10) (1/2 + (similar.length : ℚ) * (1/20)),
           source := "turso_similar_products" }
  else
    match patterns with
    | p :: _ =>
      some { length := p.avg_length, width := p.avg_width, height := p.avg_height,
             weight := p.avg_weight,
             confidence := min (7/10) (3/10 + (p.sample_count : ℚ) * (1/50)),
             source := "turso_category_patterns" }
    | [] => none

/-- The per-URL error fallback the batch loop of src/backend/server.js
lines 757-776 pushes for a rejected resolution (`scrapingMethod:
"error_fallback"`, flat shipping 20). -/
def errorFallbackProduct (url : String) : Product :=
  { url := url, name := some ("Product from " ++ detectRetailerSrv url),
    price := none,
    image := some "https://placehold.co/300x300/7CB342/FFFFFF/png?text=SDL",
    retailer := detectRetailerSrv url, category := some "General Merchandise",
    weight := none, dimensions := none, shippingCost := 20, inStock := true,
    scrapingMethod := "error_fallback" }

/-- One settled resolution of the `Promise.allSettled` batch loop
(src/backend/server.js lines 751-777): a fulfilled promise contributes its
Product, a rejected one the error fallback for that URL.  `settle` is the
settled outcome of `scrapeProductData(url)` for each URL. -/
def settleOne (settle : String → Except String Product) (u : String) : Product :=
  match settle u with
  | Except.ok p => p
  | Except.error _ => errorFallbackProduct u

/-- The batch loop of src/backend/server.js lines 744-786: slice the URL
list into groups of `batchSize = 3`, settle each group with
`Promise.allSettled` (which reports results in the order of the mapped
array), push fulfilled values and per-URL error fallbacks positionally,
then move to the next group. -/
def scrapeBatchLoop (settle : String → Except String Product) :
    List String → List Product
  | [] => []
  | u :: rest =>
    (u :: rest.take 2).map (settleOne settle) ++
      scrapeBatchLoop settle (rest.drop 2)
termination_by l => l.length
decreasing_by simp [List.length_drop]; omega

/-- The batch loop of src/unnamed/part_000 lines 1241-1263: each URL of a
group resolves inside a try/catch that returns `null` on failure, the group
runs under `Promise.all`, and the code pushes
`batchResults.filter(p => p !== null)` — failed URLs are dropped. -/
def scrapeBatchLoopFiltered (settle : String → Except String Product) :
    List String → List Product
  | [] => []
  | u :: rest =>
    ((u :: rest.take 2).map (fun v =>
        match settle v with
        | Except.ok p => some p
        | Except.error _ => none)).filterMap id ++
      scrapeBatchLoopFiltered settle (rest.drop 2)
termination_by l => l.length
decreasing_by simp [List.length_drop]; omega

/-- The `/api/scrape` handler of src/backend/server.js lines 702-792 up to
its batch result: input validation (missing or empty URL array, hard cap of
20), the `TEST_MODE` mock branch, then the batch loop.  `settle` stands for
the provider-driven resolution of one URL; a rejected request never consults
it. -/
def mainScrapeHandler (settle : String → Except String Product)
    (testMode : Bool) (urls : Option (List String)) :
    Except String (List Product) :=
  match urls with
  | none => Except.error "Please provide an array of URLs"
  | some l =>
    if l.length = 0 then Except.error "Please provide an array of URLs"
    else if 20 < l.length then Except.error "Maximum 20 URLs allowed per request"
    else if testMode then
      Except.ok (l.enum.map (fun p =>
        { url := p.2, name := some ("Test Product " ++ toString (p.1 + 1)),
          price := some (9999/100),
          image := some "https://placehold.co/300x300/7CB342/FFFFFF/png?text=Test",
          retailer := detectRetailerSrv p.2, category := some "General Merchandise",
          weight := some (5/2),
          dimensions := some { length := 12, width := 8, height := 4 },
          shippingCost := 51/2, inStock := true, scrapingMethod := "test_mode" }))
    else Except.ok (scrapeBatchLoop settle l)

/-- The input validation of the TEST server `/api/scrape` handler
(src/backend/server.js lines 56-68): missing or empty URL array rejected,
cap of 50 URLs.  `some err` means the request is rejected with that
message before any scraping starts. -/
def testScrapeValidation (urls : Option (List String)) : Option String :=
  match urls with
  | none => some "URLs array is required"
  | some l =>
    if l.length = 0 then some "URLs array is required"
    else if 50 < l.length then some "Maximum 50 URLs allowed"
    else none

/-- An environment in which the cache misses, Apify is unavailable, and the
ScrapingBee extraction finds a product name but no image and no price. -/
def c1Env : ScrapeEnv :=
  { cache := none, apifyAvailable := false, apify := none,
    scrapingBeeKey := true,
    sb := some { name := "Widget", price := none, image := none },
    upcEnabled := false, upc := none, aiEstimation := none }

/-- An environment in which the cache misses and every provider is
unavailable. -/
def c1AllFailEnv : ScrapeEnv :=
  { cache := none, apifyAvailable := false, apify := none,
    scrapingBeeKey := false, sb := none, upcEnabled := false, upc := none,
    aiEstimation := none }

/-- An environment in which the cache misses, Apify and ScrapingBee yield
nothing, and UPCitemdb returns an item with no title: the one path on which
`scrapeProductData` throws. -/
def c1UpcEnv : ScrapeEnv :=
  { cache := none, apifyAvailable := false, apify := none,
    scrapingBeeKey := false, sb := none, upcEnabled := true,
    upc := some { name := none, image := none, dimensions := none,
                  weight := some 5 },
    aiEstimation := none }

/-- A resolved Product used by the batch-loop examples. -/
def c7Product (u : String) : Product :=
  { url := u, name := some "P", price := none, image := none, retailer := "R",
    category := some "General Merchandise", weight := none, dimensions := none,
    shippingCost := 0, inStock := true, scrapingMethod := "apify" }

/-- A settled environment in which the second URL rejects. -/
def c7Settle (u : String) : Except String Product :=
  if u = "https://example.com/b" then Except.error "timeout"
  else Except.ok (c7Product u)

def c7Urls : List String :=
  ["https://example.com/a", "https://example.com/b", "https://example.com/c"]

/-- A fully populated stored row whose confidence has grown to 0.9. -/
def c4Row : ProductRow :=
  { url := "https://example.com/item", name := some "Full Product",
    retailer := some "Amazon", category := some "Furniture",
    price := some 100, weight := some 10, length := 10, width := 5,
    height := 3, image := some "img", scrape_method := some "apify",
    confidence := 9/10, times_seen := 3, last_updated := 50 }

/-- A later, less complete scrape of the same URL: name only. -/
def c4LessComplete : ProductInput :=
  { url := "https://example.com/item", name := some "Sparse Product",
    retailer := some "Amazon", category := some "Furniture", price := none,
    weight := none, dimensions := none, image := none,
    scrapingMethod := some "scrapingbee" }

/-- A fresh, confidence-gated stored row (seen at day 90, queried at day
100, confidence 0.8 > 0.7). -/
def c10RowA : ProductRow :=
  { url := "https://example.com/a", name := some "A", retailer := none,
    category := none, price := none, weight := none, length := 0, width := 0,
    height := 0, image := none, scrape_method := none, confidence := 4/5,
    times_seen := 2, last_updated := 90 }

/-- A second stored row under a different url. -/
def c10RowB : ProductRow :=
  { url := "https://example.com/b", name := some "B", retailer := none,
    category := none, price := none, weight := none, length := 0, width := 0,
    height := 0, image := none, scrape_method := none, confidence := 4/5,
    times_seen := 1, last_updated := 90 }

/-- A similar-product row with the given weight (the other physical fields
are irrelevant to the weight aggregate). -/
def c5Row (w : ℚ) : ProductRow :=
  { url := "https://example.com/similar", name := some "S", retailer := some "Amazon",
    category := some "Furniture", price := some 100, weight := some w,
    length := 0, width := 0, height := 0, image := none,
    scrape_method := some "apify", confidence := 1, times_seen := 1,
    last_updated := 0 }

/-- Seven weight samples, one an extreme outlier (1000). -/
def c5Rows : List ProductRow :=
  [c5Row 10, c5Row 11, c5Row 12, c5Row 13, c5Row 14, c5Row 9, c5Row 1000]

theorem le_jsRound {a : ℤ} {x : ℚ} (h : (a : ℚ) ≤ x) : a ≤ jsRound x := by
  unfold jsRound
  exact Int.le_floor.mpr (by linarith)

theorem jsRound_le {x : ℚ} {b : ℤ} (h : x ≤ (b : ℚ)) : jsRound x ≤ b := by
  unfold jsRound
  have : ⌊x + 1/2⌋ < b + 1 := by
    rw [Int.floor_lt]
    push_cast
    linarith
  omega

theorem clampRound_ge (q : ℚ) : 8 ≤ jsRound (max 8 (min q 200)) :=
  le_jsRound (by push_cast; exact le_max_left _ _)

theorem clampRound_le (q : ℚ) : jsRound (max 8 (min q 200)) ≤ 200 :=
  jsRound_le (by push_cast; exact max_le (by norm_num) (min_le_right _ _))

theorem roundCents_cents (q : ℚ) : ∃ n : ℤ, roundCents q = (n : ℚ) / 100 :=
  ⟨jsRound (q * 100), rfl⟩

theorem roundCents_ge {m : ℤ} {q : ℚ} (h : (m : ℚ) ≤ q) : (m : ℚ) ≤ roundCents q := by
  unfold roundCents
  have h1 : (100 * m : ℤ) ≤ jsRound (q * 100) := le_jsRound (by push_cast; linarith)
  have h2 : ((100 * m : ℤ) : ℚ) ≤ (jsRound (q * 100) : ℚ) := Int.cast_le.mpr h1
  push_cast at h2
  linarith

theorem one_le_categoryMultipliersSrv (c : String) : 1 ≤ categoryMultipliersSrv c := by
  unfold categoryMultipliersSrv
  split_ifs <;> norm_num

theorem firstMatchingCategory_eq_find (text : String) (rules : List (String × List String)) :
    firstMatchingCategory text rules =
      match rules.find? (fun r => r.2.any (fun kw => containsWord text kw)) with
      | some r => r.1
      | none => "General Merchandise" := by
  induction rules with
  | nil => rfl
  | cons r rest ih =>
    by_cases h : r.2.any (fun kw => containsWord text kw) = true
    · simp [firstMatchingCategory, List.find?, h]
    · simp only [Bool.not_eq_true] at h
      simp [firstMatchingCategory, List.find?, h, ih]

theorem categorizeProduct_eq_firstMatch (name url : String) :
    categorizeProduct name url =
      firstMatchingCategory (categorizeText name url) categoryRules := rfl

theorem find_after_save (s : Store) (u : String) (row : ProductRow)
    (h : row.url = u) :
    (s.filter (fun r => !decide (r.url = u)) ++ [row]).find?
      (fun r => decide (r.url = u)) = some row := by
  induction s with
  | nil => simp [List.find?, h]
  | cons a t ih =>
    by_cases ha : a.url = u
    · simpa [List.filter_cons, ha] using ih
    · simp [List.filter_cons, ha, List.find?, ih]

theorem count_url_after_save (s : Store) (u : String) (row : ProductRow)
    (h : row.url = u) :
    ((s.filter (fun r => !decide (r.url = u)) ++ [row]).filter
        (fun r => decide (r.url = u))).length = 1 := by
  induction s with
  | nil => simp [List.filter, h]
  | cons a t ih =>
    by_cases ha : a.url = u <;> simp [List.filter_cons, ha, ih, h]

theorem saveProduct_find (s : Store) (p : ProductInput) (now : ℤ) :
    (saveProduct s p now).find? (fun r => decide (r.url = p.url)) =
      some (savedRow p (saveSeen s p.url) now) := by
  unfold saveProduct
  exact find_after_save s p.url _ rfl

theorem saveSeen_saveProduct (s : Store) (p : ProductInput) (now : ℤ) :
    saveSeen (saveProduct s p now) p.url = saveSeen s p.url + 1 := by
  unfold saveSeen
  rw [saveProduct_find]
  rfl

/-- Settled results honor their URL: a fulfilled resolution of `u` carries
`url = u` (as `scrapeProductData` always does), and the error fallback is
built from `u` itself. -/
theorem settleOne_url (settle : String → Except String Product)
    (hurl : ∀ u p, settle u = Except.ok p → p.url = u) (u : String) :
    (settleOne settle u).url = u := by
  unfold settleOne
  cases hs : settle u with
  | ok p => exact hurl u p hs
  | error e => rfl

theorem scrapeBatchLoop_eq_map (settle : String → Except String Product) :
    ∀ (n : ℕ) (urls : List String), urls.length ≤ n →
      scrapeBatchLoop settle urls = urls.map (settleOne settle) := by
  intro n
  induction n with
  | zero =>
    intro urls h
    cases urls with
    | nil => simp [scrapeBatchLoop]
    | cons u rest => simp at h
  | succ n ih =>
    intro urls h
    cases urls with
    | nil => simp [scrapeBatchLoop]
    | cons u rest =>
      rw [scrapeBatchLoop, ih (rest.drop 2) (by simp [List.length_drop] at h ⊢; omega)]
      rw [List.map_cons, ← List.map_cons (settleOne settle) u (rest.take 2), ← List.map_append]
      rw [List.cons_append, List.take_append_drop]

theorem c7Settle_url : ∀ u p, c7Settle u = Except.ok p → p.url = u := by
  intro u p h
  unfold c7Settle at h
  split at h
  · exact Except.noConfusion h
  · injection h with h2
    rw [← h2]
    rfl

theorem insertAsc_length (x : ℚ) (l : List ℚ) :
    (insertAsc x l).length = l.length + 1 := by
  induction l with
  | nil => rfl
  | cons y ys ih =>
    unfold insertAsc
    split_ifs <;> simp [ih]

theorem sortAsc_length (l : List ℚ) : (sortAsc l).length = l.length := by
  induction l with
  | nil => rfl
  | cons x xs ih =>
    unfold sortAsc at ih ⊢
    rw [List.foldr_cons, insertAsc_length, ih]
    rfl

theorem c10_select_hit :
    selectKnown [c10RowA, c10RowB] 100 "https://example.com/a" = some c10RowA := by
  have hA : knownMatch 100 "https://example.com/a" c10RowA = true := by
    simp [knownMatch, c10RowA, Bool.and_eq_true, decide_eq_true_eq]
    norm_num
  have hB : knownMatch 100 "https://example.com/a" c10RowB = false := by
    simp [knownMatch, c10RowB]
  simp [selectKnown, List.filter_cons, hA, hB, List.foldl]

/-- C1 counterexample: the original claim fails twice over.  When a
provider succeeds but extracts no image (the inline ScrapingBee branch
requires only a non-empty name), the returned Product has `image = null`,
so the resolved Product's image is not non-null for every URL; and
resolution is not failure-free: a UPCitemdb hit whose item carries no
title makes line 427 (`result.name.substring`) throw, rejecting that URL's
promise instead of returning a Product. -/
theorem c1_counterexample :
    (scrapeProductData "https://example.com/widget" c1Env).map
      (fun p => p.image) = Except.ok none ∧
    (scrapeProductData "https://example.com/widget" c1Env).map
      (fun p => p.scrapingMethod) = Except.ok "scrapingbee" ∧
    (scrapeProductData "https://example.com/widget" c1Env).map
      (fun p => p.name) = Except.ok (some "Widget") ∧
    scrapeProductData "https://example.com/upc-item" c1UpcEnv =
      Except.error "TypeError: result.name.substring" := by
  refine ⟨rfl, rfl, rfl, rfl⟩

/-- C1 (amended): resolving a product propagates an exception on exactly
one path — whenever `scrapeProductData` rejects, the cache missed, Apify
and ScrapingBee produced no data, and a UPCitemdb hit carried no title
(the `result.name.substring` logging throw); on every other path a Product
is returned.  When the cache misses and every provider is unavailable or
fails, the result is the synthesized fallback Product with
`scrapingMethod = "fallback"` and non-null name ("Product from
{retailer}"), image (the placeholder) and category (derived by the
classifier); `createFallbackProduct` likewise always carries non-null
name, image and category.  A successful provider extraction, however, may
leave `image` (or `price`) null, and a cache hit reproduces the stored
fields, which may themselves be null. -/
theorem c1_fallback_guarantee (url : String) (env : ScrapeEnv) :
    (env.cache = none →
      (env.apifyAvailable = false ∨ env.apify = none) →
      (env.scrapingBeeKey = false ∨ env.sb = none) →
      (env.upcEnabled = false ∨ env.upc = none) →
      (scrapeProductData url env).map (fun p => p.scrapingMethod) =
        Except.ok "fallback" ∧
      (scrapeProductData url env).map (fun p => p.name) =
        Except.ok (some ("Product from " ++ detectRetailerP0 url)) ∧
      (scrapeProductData url env).map (fun p => p.image) =
        Except.ok (some "https://placehold.co/300x300/7CB342/FFFFFF/png?text=SDL+Import") ∧
      (scrapeProductData url env).map (fun p => p.category) =
        Except.ok (some (categorizeProduct ("Product from " ++ detectRetailerP0 url) url))) ∧
    (∀ e, scrapeProductData url env = Except.error e →
      env.cache = none ∧
      (env.apifyAvailable = false ∨ env.apify = none) ∧
      (env.scrapingBeeKey = false ∨ env.sb = none) ∧
      env.upcEnabled = true ∧
      ∃ u, env.upc = some u ∧ u.name = none) ∧
    (∀ (testMode : Bool) (rand : ℕ),
        (createFallbackProduct url testMode rand).name.isSome ∧
        (createFallbackProduct url testMode rand).image.isSome ∧
        (createFallbackProduct url testMode rand).category.isSome ∧
        (createFallbackProduct url testMode rand).scrapingMethod = "fallback") := by
  refine ⟨?_, ?_, ?_⟩
  · intro hcache ha hs hu
    rcases hai : env.aiEstimation with _ | est <;>
      rcases ha with ha | ha <;> rcases hs with hs | hs <;> rcases hu with hu | hu <;>
      refine ⟨?_, ?_, ?_, ?_⟩ <;>
      simp [scrapeProductData, hcache, ha, hs, hu, hai, jsOrS, jsStringOfNullable,
        Except.map]
  · intro e he
    rcases hc : env.cache with _ | kp
    · rcases ha : env.apifyAvailable <;> rcases hap : env.apify with _ | a <;>
        rcases hs : env.scrapingBeeKey <;> rcases hsb : env.sb with _ | sdata <;>
        rcases hu : env.upcEnabled <;> rcases hup : env.upc with _ | u <;>
        rcases hai : env.aiEstimation with _ | est <;>
        first
          | (rcases hn : u.name with _ | nm <;>
              rcases hd : u.dimensions with _ | d <;>
              simp_all [scrapeProductData, jsOrS, jsStringOfNullable])
          | simp_all [scrapeProductData, jsOrS, jsStringOfNullable]
    · simp [scrapeProductData, hc] at he
  · intro testMode rand
    exact ⟨rfl, rfl, rfl, rfl⟩

theorem c1_fallback_guarantee_witness :
    (scrapeProductData "https://example.com/widget" c1AllFailEnv).map
      (fun p => p.scrapingMethod) = Except.ok "fallback" ∧
    c1UpcEnv.upcEnabled = true ∧ c1UpcEnv.cache = none := by
  have ha := (c1_fallback_guarantee "https://example.com/widget" c1AllFailEnv).1
    rfl (Or.inl rfl) (Or.inl rfl) (Or.inl rfl)
  have hb := (c1_fallback_guarantee "https://example.com/upc-item" c1UpcEnv).2.1
    "TypeError: result.name.substring" rfl
  exact ⟨ha.1, hb.2.2.2.1, hb.1⟩

/-- C2 (amended): `estimateShippingCost` clamps its result to the configured
[8, 200] range — always ≥ the floor 8 and ≤ the ceiling 200 — but returns
whole dollars (`Math.round`), not cents; `calculateShippingCost` rounds to
cents (an exact multiple of 1/100) and is bounded below by 15, but applies
no ceiling. -/
theorem c2_shipping_cost_bounds :
    (∀ (category : String) (price weight : Option ℚ) (dimensions : Option Dims),
        8 ≤ estimateShippingCost category price weight dimensions ∧
        estimateShippingCost category price weight dimensions ≤ 200) ∧
    (∀ (category : String) (weight price : Option ℚ) (dimensions : Option Dims),
        (∃ n : ℤ, calculateShippingCost category weight price dimensions = (n : ℚ) / 100) ∧
        (15 : ℚ) ≤ calculateShippingCost category weight price dimensions) := by
  constructor
  · intro category price weight dimensions
    unfold estimateShippingCost
    exact ⟨clampRound_ge _, clampRound_le _⟩
  · intro category weight price dimensions
    constructor
    · unfold calculateShippingCost
      exact roundCents_cents _
    · unfold calculateShippingCost
      have hm := one_le_categoryMultipliersSrv category
      have h15 : (15 : ℚ) ≤ 15 * categoryMultipliersSrv category := by nlinarith
      have hmax : (5/2 : ℚ) ≤ max 1 (jsNum price * (1/50) * categoryMultipliersSrv category) * (5/2) := by
        have := le_max_left 1 (jsNum price * (1/50) * categoryMultipliersSrv category)
        nlinarith
      have hcast : ((15 : ℤ) : ℚ) = (15 : ℚ) := by norm_num
      rw [← hcast]
      apply roundCents_ge (m := 15)
      rcases weight with _ | w <;> rcases price with _ | p <;> dsimp only <;> push_cast <;>
        (try split_ifs) <;>
        first
          | linarith
          | nlinarith [le_min (by linarith : (0:ℚ) ≤ p * (1/20)) (by norm_num : (0:ℚ) ≤ 50)]

/-- C2 counterexample: `calculateShippingCost` at weight 1000 returns 2515,
far above the only configured ceiling (200) in the code, and
`estimateShippingCost` at an Electronics item priced 150 returns the whole
dollar 20 although the exact clamped cost 99/5 = 19.80 is itself a cents
value — so the result is not rounded to cents. -/
theorem c2_counterexample :
    calculateShippingCost "General Merchandise" (some 1000) (some 50) none = 2515 ∧
    ¬(calculateShippingCost "General Merchandise" (some 1000) (some 50) none ≤ 200) ∧
    estimateShippingCost "Electronics" (some 150) none none = 20 ∧
    roundCents (99/5) = 99/5 ∧ ((20 : ℚ) ≠ 99/5) := by
  have h1 : calculateShippingCost "General Merchandise" (some 1000) (some 50) none = 2515 := by
    simp [calculateShippingCost, categoryMultipliersSrv, jsNum, roundCents]
    norm_num [jsRound]
  have h2 : estimateShippingCost "Electronics" (some 150) none none = 20 := by
    simp [estimateShippingCost, categoryMultipliersP0]
    norm_num [jsRound]
  refine ⟨h1, by rw [h1]; norm_num, h2, by norm_num [roundCents, jsRound], by norm_num⟩

/-- C3 (amended): the shipping estimators are deterministic except for the
test-mode random adjustment: `estimateShippingCostTest` with `TEST_MODE`
off does not depend on the random draw (same inputs, same cost), and
`calculateShippingCost` takes no random input at all; with `TEST_MODE` on
the test server adds `Math.floor(Math.random()*10) - 5`, so two calls with
identical product inputs can differ. -/
theorem c3_determinism :
    ∀ (category : String) (dimensions : Option Dims) (weight : Option ℚ) (r1 r2 : ℕ),
      estimateShippingCostTest category dimensions weight false r1 =
        estimateShippingCostTest category dimensions weight false r2 := by
  intro category dimensions weight r1 r2
  simp [estimateShippingCostTest]

/-- C3 counterexample: with `TEST_MODE` on, the same category and product
inputs yield different shipping costs for different random draws (15 versus
24 for draws 0 and 9), so the cited estimator is not a deterministic
function of its product inputs. -/
theorem c3_counterexample :
    estimateShippingCostTest "General" none none true 0 ≠
      estimateShippingCostTest "General" none none true 9 := by
  have h0 : estimateShippingCostTest "General" none none true 0 = 15 := by
    simp [estimateShippingCostTest, categoryRatesTest]
    norm_num [jsRound]
  have h9 : estimateShippingCostTest "General" none none true 9 = 24 := by
    simp [estimateShippingCostTest, categoryRatesTest]
    norm_num [jsRound]
  rw [h0, h9]
  norm_num

/-- C4 (amended): `saveProduct` overwrites the stored confidence with a
value recomputed solely from the completeness of the newly saved data
(0.3 base + 0.2 name + 0.2 price + 0.2 dimensions + 0.1 weight),
regardless of the previously stored confidence — so a less-complete
re-save of the same URL lowers the stored confidence (see the
counterexample).  `times_seen` alone survives the old record. -/
theorem c4_confidence_recomputed (s : Store) (p : ProductInput) (now : ℤ) :
    ∃ r : ProductRow,
      (saveProduct s p now).find? (fun x => decide (x.url = p.url)) = some r ∧
      r.confidence = computeConfidence p ∧
      r.times_seen = saveSeen s p.url ∧
      r.last_updated = now := by
  exact ⟨savedRow p (saveSeen s p.url) now, saveProduct_find s p now, rfl, rfl, rfl⟩

/-- C4 counterexample: re-saving a URL stored with confidence 0.9 using a
less-complete scrape (name only) leaves the stored confidence at
0.3 + 0.2 = 0.5 < 0.9 — `saveProduct` silently resets confidence to a
lower value. -/
theorem c4_counterexample :
    ((saveProduct [c4Row] c4LessComplete 60).find?
        (fun r => decide (r.url = "https://example.com/item"))).map
        ProductRow.confidence = some (1/2) ∧
    (([c4Row] : Store).find?
        (fun r => decide (r.url = "https://example.com/item"))).map
        ProductRow.confidence = some (9/10) ∧
    ((1 : ℚ)/2 < 9/10) := by
  refine ⟨?_, ?_, by norm_num⟩
  · have h := saveProduct_find [c4Row] c4LessComplete 60
    have hu : c4LessComplete.url = "https://example.com/item" := rfl
    rw [hu] at h
    rw [h]
    simp [savedRow, computeConfidence, c4LessComplete]
    norm_num
  · simp [List.find?, c4Row]

/-- C5: with more than 3 similar products whose weight samples hold exactly
7 positive data points, `getSmartEstimation` aggregates the weight as a
trimmed mean — `Math.floor(7 * 0.2) = 1` sample is dropped from each end of
the sorted samples, and the result is the plain mean of the inner 5. -/
theorem c5_trimmed_mean (similar : List ProductRow)
    (patterns : List CategoryPattern)
    (h4 : 3 < similar.length)
    (h7 : (positiveSamples (similar.map (fun p => p.weight))).length = 7) :
    (getSmartEstimation similar patterns).map SmartEstimation.weight =
      some ((((sortAsc (positiveSamples (similar.map (fun p => p.weight)))).drop 1).take 5).sum
        / 5) := by
  have hs : (sortAsc (positiveSamples (similar.map (fun p => p.weight)))).length = 7 := by
    rw [sortAsc_length, h7]
  unfold getSmartEstimation
  rw [if_pos h4]
  dsimp only [Option.map]
  unfold calculateSmartAverage
  simp only [h7, hs]
  norm_num [List.length_take, List.length_drop, hs]

theorem c5_trimmed_mean_witness :
    (getSmartEstimation c5Rows []).map SmartEstimation.weight = some 12 ∧
    ((10 : ℚ) + 11 + 12 + 13 + 14) / 5 = 12 ∧
    ((9 : ℚ) + 10 + 11 + 12 + 13 + 14 + 1000) / 7 ≠ 12 := by
  have h4 : 3 < c5Rows.length := by norm_num [c5Rows]
  have h7 : (positiveSamples (c5Rows.map (fun p => p.weight))).length = 7 := by
    norm_num [c5Rows, c5Row, positiveSamples, List.filterMap_cons]
  have h := c5_trimmed_mean c5Rows [] h4 h7
  refine ⟨?_, by norm_num, by norm_num⟩
  rw [h]
  norm_num [c5Rows, c5Row, positiveSamples, List.filterMap_cons, sortAsc, insertAsc]

/-- C6: `categorizeProduct` equals the first-match-wins reading of the fixed
ordered rule list over the lowercased concatenation of name and URL —
the earliest matching rule decides even when a later category's keywords
also match, and "General Merchandise" is returned when nothing matches.
Concretely, "gaming chair" matches Furniture (rule 1, keyword "chair")
although Electronics (rule 3, keyword "gaming") also matches, and a text
matching no rule classifies as "General Merchandise". -/
theorem c6_classifier_first_match_wins :
    (∀ name url : String, categorizeProduct name url = specCategorize name url) ∧
    categorizeProduct "gaming chair" "https://example.com/p" = "Furniture" ∧
    electronicsKws.any
      (fun kw => containsWord (categorizeText "gaming chair" "https://example.com/p") kw) = true ∧
    categorizeProduct "qqq" "zzz" = "General Merchandise" := by
  refine ⟨?_, by decide, by decide, by decide⟩
  intro name url
  rw [categorizeProduct_eq_firstMatch, firstMatchingCategory_eq_find]
  rfl

/-- C7 (amended): the `Promise.allSettled` batch loop of server.js returns
exactly one Product per requested URL, in input order: position `i` of the
output resolves URL `i` of the input, with the error fallback standing in
for a rejected resolution.  The `Promise.all` batch loop of part_000,
by contrast, filters out failed URLs (see the counterexample), so its
output keeps input order but can be shorter than the input. -/
theorem c7_batch_order (settle : String → Except String Product)
    (urls : List String)
    (hurl : ∀ u p, settle u = Except.ok p → p.url = u) :
    (scrapeBatchLoop settle urls).length = urls.length ∧
    ∀ i : ℕ, ((scrapeBatchLoop settle urls)[i]?).map Product.url = urls[i]? := by
  rw [scrapeBatchLoop_eq_map settle urls.length urls le_rfl]
  constructor
  · exact List.length_map _ _
  · intro i
    rw [List.getElem?_map]
    cases hu : urls[i]? with
    | none => rfl
    | some u =>
      simp [Option.map_map, Function.comp, settleOne_url settle hurl]

theorem c7_batch_order_witness :
    (scrapeBatchLoop c7Settle c7Urls).length = c7Urls.length :=
  (c7_batch_order c7Settle c7Urls c7Settle_url).1

/-- C7 counterexample: the part_000 batch loop (`Promise.all` with a
try/catch returning `null`, then `filter(p => p !== null)`) drops a URL
whose resolution rejects — three requested URLs yield only two Products,
refuting "exactly one Product per requested URL" for this cited loop. -/
theorem c7_counterexample :
    (scrapeBatchLoopFiltered c7Settle c7Urls).length = 2 ∧ c7Urls.length = 3 := by
  constructor
  · simp [scrapeBatchLoopFiltered, c7Urls, c7Settle]
  · rfl

/-- C8 (amended): the main `/api/scrape` handler rejects a missing or empty
URL list and any list of more than its hard cap of 20 URLs, and a rejected
request never consults the providers: the response is the same whatever the
provider resolutions would be, and carries zero Products.  The TEST server
handler, however, caps at 50 URLs (see the counterexample), so a 21-URL
request is rejected only by the 20-cap handler. -/
theorem c8_request_validation (settle1 settle2 : String → Except String Product)
    (testMode : Bool) (l : List String)
    (h : l = [] ∨ 20 < l.length) :
    mainScrapeHandler settle1 testMode none =
      Except.error "Please provide an array of URLs" ∧
    mainScrapeHandler settle1 testMode (some l) =
      Except.error (if l.length = 0 then "Please provide an array of URLs"
                    else "Maximum 20 URLs allowed per request") ∧
    mainScrapeHandler settle1 testMode (some l) =
      mainScrapeHandler settle2 testMode (some l) := by
  rcases h with h | h
  · subst h
    exact ⟨rfl, rfl, rfl⟩
  · have hz : ¬(l.length = 0) := by omega
    refine ⟨rfl, ?_, ?_⟩
    · simp [mainScrapeHandler, hz, h]
    · simp [mainScrapeHandler, hz, h]

theorem c8_request_validation_witness :
    mainScrapeHandler (fun _ => Except.error "x") false
        (some (List.replicate 21 "u")) =
      Except.error "Maximum 20 URLs allowed per request" := by
  have h := c8_request_validation (fun _ => Except.error "x")
    (fun _ => Except.error "x") false (List.replicate 21 "u")
    (Or.inr (by simp))
  rw [h.2.1]
  simp

/-- C8 counterexample: the TEST server handler accepts a 21-URL request
(its cap is 50, not 20), so "a URL list exceeding the hard cap of 20 URLs
is rejected" fails for that cited handler. -/
theorem c8_counterexample :
    testScrapeValidation (some (List.replicate 21 "u")) = none ∧
    20 < (List.replicate 21 "u").length := by
  constructor
  · simp [testScrapeValidation]
  · simp

/-- C9: `saveProduct` is an upsert keyed by url.  Saving the same product
data twice leaves exactly one stored record for that URL; `times_seen` is
incremented by one on each call (so by two in total, and a fresh URL ends
at 2); every other product-data field of the second row equals the first
row's (the row differs only in `times_seen` and in `last_updated`, which
the SQL refreshes to the save time — equal saves at the same timestamp
differ in `times_seen` alone). -/
theorem c9_save_upsert_idempotent (s : Store) (p : ProductInput) (t1 t2 : ℤ) :
    ∃ r1 r2 : ProductRow,
      (saveProduct s p t1).find? (fun x => decide (x.url = p.url)) = some r1 ∧
      (saveProduct (saveProduct s p t1) p t2).find?
        (fun x => decide (x.url = p.url)) = some r2 ∧
      r2 = { r1 with times_seen := r1.times_seen + 1, last_updated := t2 } ∧
      (t1 = t2 → r2 = { r1 with times_seen := r1.times_seen + 1 }) ∧
      r1.times_seen = saveSeen s p.url ∧
      r2.times_seen = r1.times_seen + 1 ∧
      (s.find? (fun x => decide (x.url = p.url)) = none →
        r1.times_seen = 1 ∧ r2.times_seen = 2) ∧
      ((saveProduct (saveProduct s p t1) p t2).filter
          (fun x => decide (x.url = p.url))).length = 1 := by
  refine ⟨savedRow p (saveSeen s p.url) t1,
          savedRow p (saveSeen s p.url + 1) t2,
          saveProduct_find s p t1, ?_, rfl, ?_, rfl, rfl, ?_, ?_⟩
  · have h := saveProduct_find (saveProduct s p t1) p t2
    rw [saveSeen_saveProduct] at h
    exact h
  · intro h
    rw [h]
    rfl
  · intro h
    unfold saveSeen
    rw [h]
    exact ⟨rfl, rfl⟩
  · unfold saveProduct
    exact count_url_after_save _ p.url _ rfl

theorem c9_save_upsert_idempotent_witness :
    ((saveProduct (saveProduct [] c4LessComplete 7) c4LessComplete 7).filter
        (fun x => decide (x.url = c4LessComplete.url))).length = 1 ∧
    ((saveProduct (saveProduct [] c4LessComplete 7) c4LessComplete 7).find?
        (fun x => decide (x.url = c4LessComplete.url))).map
        ProductRow.times_seen = some 2 := by
  obtain ⟨r1, r2, h1, h2, h3, h4, h5, h6, h7, h8⟩ :=
    c9_save_upsert_idempotent [] c4LessComplete 7 7
  have h42 := h4 rfl
  have h72 := h7 rfl
  refine ⟨h8, ?_⟩
  rw [h2]
  simp [h72.2]

/-- C10: a `getKnownProduct` cache hit mutates the store — the matched
record's `times_seen` rises by exactly 1 and its confidence by 0.05 capped
at 1.0 (so the stored confidence never exceeds 1.0), while every other
field of that record and every record with a different url are unchanged;
a cache miss returns `none` and leaves the store entirely unchanged. -/
theorem c10_cache_hit_mutation (s : Store) (now : ℤ) (url : String) :
    (selectKnown s now url = none → getKnownProduct s now url = (none, s)) ∧
    (∀ r, selectKnown s now url = some r →
      (getKnownProduct s now url).1 = some r ∧
      (getKnownProduct s now url).2.length = s.length ∧
      (∀ i : ℕ, ((getKnownProduct s now url).2)[i]? =
          (s[i]?).map (fun row => if row.url = url then bumpKnown row else row)) ∧
      (∀ row : ProductRow, row.url ≠ url →
          (if row.url = url then bumpKnown row else row) = row) ∧
      (∀ row : ProductRow,
          (bumpKnown row).times_seen = row.times_seen + 1 ∧
          (bumpKnown row).confidence = min 1 (row.confidence + 1/20) ∧
          (bumpKnown row).confidence ≤ 1 ∧
          (bumpKnown row).url = row.url ∧
          (bumpKnown row).name = row.name ∧
          (bumpKnown row).retailer = row.retailer ∧
          (bumpKnown row).category = row.category ∧
          (bumpKnown row).price = row.price ∧
          (bumpKnown row).weight = row.weight ∧
          (bumpKnown row).length = row.length ∧
          (bumpKnown row).width = row.width ∧
          (bumpKnown row).height = row.height ∧
          (bumpKnown row).image = row.image ∧
          (bumpKnown row).scrape_method = row.scrape_method ∧
          (bumpKnown row).last_updated = row.last_updated)) := by
  constructor
  · intro h
    unfold getKnownProduct
    rw [h]
  · intro r hr
    unfold getKnownProduct
    rw [hr]
    refine ⟨rfl, by simp, ?_, ?_, ?_⟩
    · intro i
      exact List.getElem?_map _ _ _
    · intro row hrow
      simp [hrow]
    · intro row
      exact ⟨rfl, rfl, min_le_left 1 _, rfl, rfl, rfl, rfl, rfl, rfl, rfl,
        rfl, rfl, rfl, rfl, rfl⟩

theorem c10_cache_hit_mutation_witness :
    (getKnownProduct [c10RowA, c10RowB] 100 "https://example.com/a").1 = some c10RowA ∧
    ((getKnownProduct [c10RowA, c10RowB] 100 "https://example.com/a").2)[0]? =
      some (bumpKnown c10RowA) ∧
    ((getKnownProduct [c10RowA, c10RowB] 100 "https://example.com/a").2)[1]? =
      some c10RowB ∧
    (bumpKnown c10RowA).times_seen = 3 ∧
    (bumpKnown c10RowA).confidence = 17/20 := by
  have h := (c10_cache_hit_mutation [c10RowA, c10RowB] 100 "https://example.com/a").2
    c10RowA c10_select_hit
  refine ⟨h.1, ?_, ?_, rfl, ?_⟩
  · rw [h.2.2.1 0]
    simp [c10RowA]
  · rw [h.2.2.1 1]
    have hb : c10RowB.url ≠ "https://example.com/a" := by simp [c10RowB]
    simp [h.2.2.2.1 c10RowB hb]
  · show min 1 (c10RowA.confidence + 1/20) = 17/20
    have : c10RowA.confidence = 4/5 := rfl
    rw [this, min_def]
    norm_num
